import Mathlib

/-!
Verification of the mini-game-pack entity-component engine core.

Shallow embedding of the Python sources:
  * src/engine/events.py            (EventBus)
  * src/engine/gameobj.py           (Entity: active flag, collider property)
  * src/engine/systems/collusion_system.py (CollisionSystem)
  * src/engine/components/collider.py      (BoxCollider.intersects)
  * src/engine/systems/render_system.py    (RenderSystem.update)
  * src/engine/components/drawables.py     (DrawDepth)
  * src/engine/scene.py             (Scene lifecycle helpers)
  * src/engine/scene_manager.py     (SceneManager.set_active_scene)

Python object identities (entities, listeners, colliders, textures) are
modelled as natural-number ids; numeric coordinates as integers; a Python
dict-of-components is modelled by Option-valued fields for the component
kinds the engine consults.  A Python call that can raise is modelled as an
Except-valued function; a call whose code has no raising path is a total
function.
-/

namespace MiniGame

/-! ### Python list.remove

`list.remove(x)` deletes the first element structurally equal to `x` and
raises ValueError when no element matches.  Used by EventBus.unsubscribe
(src/engine/events.py line 9). -/

/-- Drop the first element structurally equal to the argument, keep the
rest; identity when no element matches. -/
def removeFirst {α : Type} [DecidableEq α] : List α → α → List α
  | [], _ => []
  | x :: xs, a => if x = a then xs else x :: removeFirst xs a

/-- Embedding of Python list.remove: first match removed, ValueError
(modelled as `Except.error ()`) when absent. -/
def pyListRemove {α : Type} [DecidableEq α] (l : List α) (a : α) : Except Unit (List α) :=
  if a ∈ l then Except.ok (removeFirst l a) else Except.error ()

/-! ### EventBus (src/engine/events.py)

`_listeners` is a plain Python list of callback objects; we model the
callbacks by ids drawn from an arbitrary type with decidable equality. -/

structure EventBus (L : Type) where
  listeners : List L
deriving DecidableEq

/-- EventBus.subscribe: appends the listener (no de-duplication). -/
def EventBus.subscribe {L : Type} (bus : EventBus L) (l : L) : EventBus L :=
  EventBus.mk (bus.listeners ++ [l])

/-- EventBus.unsubscribe: delegates to list.remove, so it removes the first
structurally-equal match and raises ValueError when the listener is absent. -/
def EventBus.unsubscribeE {L : Type} [DecidableEq L] (bus : EventBus L) (l : L) :
    Except Unit (EventBus L) :=
  match pyListRemove bus.listeners l with
  | Except.ok ls => Except.ok (EventBus.mk ls)
  | Except.error e => Except.error e

/-- EventBus.emit: the sequence of listener invocations one emit performs,
in listener-list order, each carrying the same keyword-argument record
(modelled by a value of an arbitrary payload type). -/
def EventBus.emitCalls {L : Type} {A : Type} (bus : EventBus L) (args : A) : List (L × A) :=
  bus.listeners.map (fun l => (l, args))

/-- EventBus.emit as a state transformer: each listener is a synchronous
call, so the final state is the left fold of the interpreted calls over the
listener list, in order.  `interp` gives the meaning of one callback. -/
def EventBus.emitRun {L A σ : Type} (interp : L → A → σ → σ)
    (bus : EventBus L) (args : A) (s : σ) : σ :=
  bus.listeners.foldl (fun st l => interp l args st) s

/-! ### Theorems for claims C4 and C8 -/

/-- C4 counterexample: `unsubscribe` on a listener that is not subscribed is
NOT a silent no-op — on the empty bus it raises ValueError
(`Except.error ()`), refuting the claim that it does not throw. -/
theorem unsubscribe_absent_raises :
    EventBus.unsubscribeE (EventBus.mk ([] : List Nat)) 0 = Except.error () := by
  rfl

/-- C4 (amended): `EventBus.unsubscribe` removes the first
structurally-equal match of the listener when one is subscribed, and raises
ValueError (rather than being a silent no-op) when the listener is absent. -/
theorem unsubscribe_removes_first_match_or_raises {L : Type} [DecidableEq L]
    (bus : EventBus L) (l : L) :
    (l ∈ bus.listeners →
      EventBus.unsubscribeE bus l = Except.ok (EventBus.mk (removeFirst bus.listeners l))) ∧
    (l ∉ bus.listeners → EventBus.unsubscribeE bus l = Except.error ()) := by
  constructor
  · intro h
    simp [EventBus.unsubscribeE, pyListRemove, h]
  · intro h
    simp [EventBus.unsubscribeE, pyListRemove, h]

/-- Witness for C4: on the bus with listeners [3, 5], removing 5 succeeds
and removing 7 raises. -/
theorem unsubscribe_removes_first_match_or_raises_witness :
    EventBus.unsubscribeE (EventBus.mk [3, 5]) 5 = Except.ok (EventBus.mk [3]) ∧
    EventBus.unsubscribeE (EventBus.mk [3, 5]) 7 = Except.error () :=
  ⟨(unsubscribe_removes_first_match_or_raises (EventBus.mk [3, 5]) 5).1 (by decide),
   (unsubscribe_removes_first_match_or_raises (EventBus.mk [3, 5]) 7).2 (by decide)⟩

/-- Helper: counting a pair (l, args) among the calls built from a listener
list counts the occurrences of l in that list. -/
theorem count_pair_map {L A : Type} [DecidableEq L] [DecidableEq A]
    (ls : List L) (l : L) (args : A) :
    (ls.map (fun x => (x, args))).count (l, args) = ls.count l := by
  induction ls with
  | nil => simp
  | cons x xs ih =>
    simp only [List.map_cons, List.count_cons, ih]
    congr 1
    by_cases hx : x = l
    · simp [hx]
    · simp [hx, Prod.ext_iff]

/-- C8: one emit invokes every currently-subscribed listener, in
subscription (insertion) order, passing the same argument record to each;
listeners are not de-duplicated, so a listener subscribed k times is
invoked k times per emit; and the stateful meaning of emit is the in-order
left fold of those synchronous calls. -/
theorem emit_invokes_in_order_no_dedup {L A : Type} [DecidableEq L] [DecidableEq A]
    (bus : EventBus L) (l : L) (args : A) :
    ((bus.subscribe l).emitCalls args = bus.emitCalls args ++ [(l, args)]) ∧
    (((bus.emitCalls args).map Prod.fst = bus.listeners) ∧
      (∀ c ∈ bus.emitCalls args, c.2 = args)) ∧
    ((bus.emitCalls args).count (l, args) = bus.listeners.count l) ∧
    (∀ (σ : Type) (interp : L → A → σ → σ) (s : σ),
      EventBus.emitRun interp bus args s =
        (bus.emitCalls args).foldl (fun st c => interp c.1 c.2 st) s) := by
  refine ⟨?_, ⟨?_, ?_⟩, ?_, ?_⟩
  · simp [EventBus.subscribe, EventBus.emitCalls]
  · show List.map Prod.fst (List.map (fun x => (x, args)) bus.listeners) = bus.listeners
    rw [List.map_map]
    have : (Prod.fst ∘ fun x : L => (x, args)) = id := by
      funext x
      rfl
    rw [this, List.map_id]
  · intro c hc
    simp [EventBus.emitCalls] at hc
    obtain ⟨x, _, rfl⟩ := hc
    rfl
  · exact count_pair_map bus.listeners l args
  · intro σ interp s
    simp only [EventBus.emitRun, EventBus.emitCalls]
    rw [List.foldl_map]

/-- Witness for C8: on the bus with listeners [1, 2, 1] and payload 7, the
listener 1 subscribed twice is invoked twice, and subscribing 9 appends its
invocation after the existing ones. -/
theorem emit_invokes_in_order_no_dedup_witness :
    (((EventBus.mk [1, 2, 1]).emitCalls 7).count ((1 : Nat), (7 : Nat)) =
      List.count 1 [1, 2, 1]) ∧
    (((EventBus.mk [1, 2, 1]).subscribe 9).emitCalls 7 =
      (EventBus.mk [1, 2, 1]).emitCalls 7 ++ [(9, 7)]) :=
  ⟨(emit_invokes_in_order_no_dedup (EventBus.mk [1, 2, 1]) 1 7).2.2.1,
   (emit_invokes_in_order_no_dedup (EventBus.mk [1, 2, 1]) 9 7).1⟩

/-! ### CollisionSystem collider registry (src/engine/systems/collusion_system.py)

`self.colliders` is a Python list of collider objects; colliders are
modelled by ids.  `register_collider` appends when absent;
`unregister_collider` removes when present (both guarded by membership
tests, so neither has a raising path). -/

/-- CollisionSystem.register_collider: append the collider unless already
registered. -/
def registerCollider (r : List Nat) (c : Nat) : List Nat :=
  if c ∈ r then r else r ++ [c]

/-- CollisionSystem.unregister_collider: remove the collider when present,
otherwise leave the registry unchanged (the membership guard means there is
no raising path). -/
def unregisterCollider (r : List Nat) (c : Nat) : List Nat :=
  if c ∈ r then r.erase c else r

/-! ### Entity active / collider wiring (src/engine/gameobj.py)

An Entity holds `active`, a private `_collider` (exposed via the
collider property) and a reference to the CollisionSystem.  We model an
entity wired to the CollisionSystem, together with the registry the system
owns, and the operations of the claim: construction, the collider property
setter, and `set_active`. -/

structure EntityColSt where
  active : Bool
  collider : Option Nat
deriving DecidableEq

structure EntityWorld where
  ent : EntityColSt
  registry : List Nat
deriving DecidableEq

/-- Entity.__init__: sets `active = True`, `_collider = None`, then calls
`set_active(True)`, which does nothing because the collider is None.  The
registry (owned by the CollisionSystem the entity is wired to) is
untouched. -/
def EntityWorld.init (r : List Nat) : EntityWorld :=
  EntityWorld.mk (EntityColSt.mk true none) r

/-- The collider property setter: first unregisters the prior collider when
one exists (regardless of active state), stores the new collider, then
registers it only when it is non-null and the entity is active. -/
def EntityWorld.setCollider (s : EntityWorld) (newc : Option Nat) : EntityWorld :=
  let r1 :=
    match s.ent.collider with
    | some old => unregisterCollider s.registry old
    | none => s.registry
  let r2 :=
    match newc with
    | some c => if s.ent.active then registerCollider r1 c else r1
    | none => r1
  EntityWorld.mk (EntityColSt.mk s.ent.active newc) r2

/-- Entity.set_active: stores the flag, then, when a collider exists,
registers it (activating) or unregisters it (deactivating). -/
def EntityWorld.setActive (s : EntityWorld) (b : Bool) : EntityWorld :=
  match s.ent.collider with
  | some c =>
      if b then EntityWorld.mk (EntityColSt.mk b s.ent.collider) (registerCollider s.registry c)
      else EntityWorld.mk (EntityColSt.mk b s.ent.collider) (unregisterCollider s.registry c)
  | none => EntityWorld.mk (EntityColSt.mk b s.ent.collider) s.registry

/-- One public operation on the entity, as listed in the claim. -/
inductive EntityOp where
  | setActive (b : Bool)
  | setCollider (c : Option Nat)
deriving DecidableEq

def EntityWorld.runOp (s : EntityWorld) : EntityOp → EntityWorld
  | EntityOp.setActive b => s.setActive b
  | EntityOp.setCollider c => s.setCollider c

def EntityWorld.runOps (s : EntityWorld) (ops : List EntityOp) : EntityWorld :=
  ops.foldl EntityWorld.runOp s

/-- The collider ids an operation list mentions. -/
def opColliderIds (ops : List EntityOp) : List Nat :=
  ops.filterMap (fun o =>
    match o with
    | EntityOp.setCollider (some c) => some c
    | _ => none)

/-- The portion of the registry contributed by the entity itself: its
current collider exactly when it is active and non-null. -/
def EntityColSt.ownedPart (e : EntityColSt) : List Nat :=
  match e.collider, e.active with
  | some c, true => [c]
  | _, _ => []

theorem registerCollider_fresh (r : List Nat) (c : Nat) (h : c ∉ r) :
    registerCollider r c = r ++ [c] := by
  simp [registerCollider, h]

theorem unregisterCollider_append_singleton (r : List Nat) (c : Nat) (h : c ∉ r) :
    unregisterCollider (r ++ [c]) c = r := by
  have hmem : c ∈ r ++ [c] := by simp
  simp only [unregisterCollider, hmem, if_true]
  rw [List.erase_append_right _ h]
  simp

theorem unregisterCollider_absent (r : List Nat) (c : Nat) (h : c ∉ r) :
    unregisterCollider r c = r := by
  simp [unregisterCollider, h]

/-- Invariant carried through the induction for C2: the registry is the
ambient registry plus exactly the owned part, and the current collider (if
any) is fresh with respect to the ambient registry. -/
def C2Inv (r0 : List Nat) (s : EntityWorld) : Prop :=
  s.registry = r0 ++ s.ent.ownedPart ∧ (∀ c, s.ent.collider = some c → c ∉ r0)

theorem c2_inv_step (r0 : List Nat) (s : EntityWorld) (o : EntityOp)
    (hfresh : ∀ c, o = EntityOp.setCollider (some c) → c ∉ r0)
    (hinv : C2Inv r0 s) : C2Inv r0 (s.runOp o) := by
  obtain ⟨hreg, hcur⟩ := hinv
  cases o with
  | setActive b =>
      cases hc : s.ent.collider with
      | none =>
          constructor
          · simpa [EntityWorld.runOp, EntityWorld.setActive, hc, EntityColSt.ownedPart,
              hc] using by
              rw [hreg]
              simp [EntityColSt.ownedPart, hc]
          · intro c h
            simp [EntityWorld.runOp, EntityWorld.setActive, hc] at h
      | some c =>
          have hcr0 : c ∉ r0 := hcur c hc
          cases hb : s.ent.active with
          | true =>
              cases b with
              | true =>
                  constructor
                  · simp only [EntityWorld.runOp, EntityWorld.setActive, hc]
                    rw [hreg]
                    have : c ∈ r0 ++ s.ent.ownedPart := by
                      simp [EntityColSt.ownedPart, hc, hb]
                    simp only [registerCollider, this, if_true]
                    simp [EntityColSt.ownedPart, hc, hb]
                  · intro d hd
                    simp [EntityWorld.runOp, EntityWorld.setActive, hc] at hd
                    exact hd ▸ hcr0
              | false =>
                  constructor
                  · simp only [EntityWorld.runOp, EntityWorld.setActive, hc]
                    rw [hreg]
                    have hop : s.ent.ownedPart = [c] := by
                      simp [EntityColSt.ownedPart, hc, hb]
                    rw [hop]
                    rw [unregisterCollider_append_singleton r0 c hcr0]
                    simp [EntityColSt.ownedPart, hc]
                  · intro d hd
                    simp [EntityWorld.runOp, EntityWorld.setActive, hc] at hd
                    exact hd ▸ hcr0
          | false =>
              have hop : s.ent.ownedPart = [] := by
                simp [EntityColSt.ownedPart, hc, hb]
              cases b with
              | true =>
                  constructor
                  · simp only [EntityWorld.runOp, EntityWorld.setActive, hc]
                    rw [hreg, hop, List.append_nil]
                    rw [registerCollider_fresh r0 c hcr0]
                    simp [EntityColSt.ownedPart, hc]
                  · intro d hd
                    simp [EntityWorld.runOp, EntityWorld.setActive, hc] at hd
                    exact hd ▸ hcr0
              | false =>
                  constructor
                  · simp only [EntityWorld.runOp, EntityWorld.setActive, hc]
                    rw [hreg, hop, List.append_nil]
                    rw [unregisterCollider_absent r0 c hcr0]
                    simp [EntityColSt.ownedPart, hc]
                  · intro d hd
                    simp [EntityWorld.runOp, EntityWorld.setActive, hc] at hd
                    exact hd ▸ hcr0
  | setCollider nc =>
      have hr1 : (match s.ent.collider with
          | some old => unregisterCollider s.registry old
          | none => s.registry) = r0 := by
        cases hc : s.ent.collider with
        | none =>
            rw [hreg]
            simp [EntityColSt.ownedPart, hc]
        | some c =>
            have hcr0 : c ∉ r0 := hcur c hc
            cases hb : s.ent.active with
            | true =>
                rw [hreg]
                have hop : s.ent.ownedPart = [c] := by
                  simp [EntityColSt.ownedPart, hc, hb]
                rw [hop]
                exact unregisterCollider_append_singleton r0 c hcr0
            | false =>
                rw [hreg]
                have hop : s.ent.ownedPart = [] := by
                  simp [EntityColSt.ownedPart, hc, hb]
                rw [hop, List.append_nil]
                exact unregisterCollider_absent r0 c hcr0
      cases nc with
      | none =>
          constructor
          · simp only [EntityWorld.runOp, EntityWorld.setCollider]
            rw [hr1]
            simp [EntityColSt.ownedPart]
          · intro d hd
            simp [EntityWorld.runOp, EntityWorld.setCollider] at hd
      | some c =>
          have hcr0 : c ∉ r0 := hfresh c rfl
          constructor
          · simp only [EntityWorld.runOp, EntityWorld.setCollider]
            rw [hr1]
            cases hb : s.ent.active with
            | true =>
                simp only [hb, if_true]
                rw [registerCollider_fresh r0 c hcr0]
                simp [EntityColSt.ownedPart, hb]
            | false =>
                simp [hb, EntityColSt.ownedPart]
          · intro d hd
            simp [EntityWorld.runOp, EntityWorld.setCollider] at hd
            exact hd ▸ hcr0

theorem c2_inv_runOps (r0 : List Nat) (s : EntityWorld) (ops : List EntityOp)
    (hfresh : ∀ c, c ∈ opColliderIds ops → c ∉ r0)
    (hinv : C2Inv r0 s) : C2Inv r0 (s.runOps ops) := by
  induction ops generalizing s with
  | nil => exact hinv
  | cons o os ih =>
      have hmem : ∀ c, c ∈ opColliderIds (o :: os) ↔
          (o = EntityOp.setCollider (some c) ∨ c ∈ opColliderIds os) := by
        intro c
        cases o with
        | setActive b => simp [opColliderIds, List.filterMap_cons]
        | setCollider oc =>
            cases oc with
            | none => simp [opColliderIds, List.filterMap_cons]
            | some d =>
                simp only [opColliderIds, List.filterMap_cons]
                constructor
                · intro h
                  rcases List.mem_cons.mp h with h1 | h1
                  · exact Or.inl (by rw [h1])
                  · exact Or.inr h1
                · intro h
                  rcases h with h1 | h1
                  · cases h1
                    exact List.mem_cons_self _ _
                  · exact List.mem_cons_of_mem _ h1
      have h1 : ∀ c, o = EntityOp.setCollider (some c) → c ∉ r0 := by
        intro c hc
        exact hfresh c ((hmem c).mpr (Or.inl hc))
      have h2 : ∀ c, c ∈ opColliderIds os → c ∉ r0 := by
        intro c hc
        exact hfresh c ((hmem c).mpr (Or.inr hc))
      show C2Inv r0 ((s.runOp o).runOps os)
      exact ih (s.runOp o) h2 (c2_inv_step r0 s o h1 hinv)

/-- C2: for an entity wired to the CollisionSystem, after any sequence of
construction, set_active and collider-property assignments (with the
assigned collider ids fresh with respect to the ambient registry, as Python
object identity guarantees), a collider id of the entity is registered iff
the entity is active and it is the current collider; in particular at most
one of the entity's colliders is ever registered at a time. -/
theorem entity_collider_registration_invariant (r0 : List Nat) (ops : List EntityOp)
    (hfresh : ∀ c, c ∈ opColliderIds ops → c ∉ r0) :
    (∀ c, c ∉ r0 →
      (c ∈ ((EntityWorld.init r0).runOps ops).registry ↔
        ((EntityWorld.init r0).runOps ops).ent.active = true ∧
          ((EntityWorld.init r0).runOps ops).ent.collider = some c)) ∧
    (∀ c1 c2, c1 ∉ r0 → c2 ∉ r0 →
      c1 ∈ ((EntityWorld.init r0).runOps ops).registry →
      c2 ∈ ((EntityWorld.init r0).runOps ops).registry → c1 = c2) := by
  have hinit : C2Inv r0 (EntityWorld.init r0) := by
    constructor
    · simp [EntityWorld.init, EntityColSt.ownedPart]
    · intro c h
      simp [EntityWorld.init] at h
  have hinv := c2_inv_runOps r0 (EntityWorld.init r0) ops hfresh hinit
  obtain ⟨hreg, _⟩ := hinv
  set s := (EntityWorld.init r0).runOps ops with hs
  have hmem : ∀ c, c ∉ r0 → (c ∈ s.registry ↔ c ∈ s.ent.ownedPart) := by
    intro c hc
    rw [hreg]
    simp [List.mem_append, hc]
  constructor
  · intro c hc
    rw [hmem c hc]
    cases hcol : s.ent.collider with
    | none => simp [EntityColSt.ownedPart, hcol]
    | some d =>
        cases hact : s.ent.active with
        | true => simp [EntityColSt.ownedPart, hcol, hact, eq_comm]
        | false => simp [EntityColSt.ownedPart, hcol, hact]
  · intro c1 c2 h1 h2 hm1 hm2
    rw [hmem c1 h1] at hm1
    rw [hmem c2 h2] at hm2
    cases hcol : s.ent.collider with
    | none => simp [EntityColSt.ownedPart, hcol] at hm1
    | some d =>
        cases hact : s.ent.active with
        | true =>
            simp [EntityColSt.ownedPart, hcol, hact] at hm1 hm2
            rw [hm1, hm2]
        | false => simp [EntityColSt.ownedPart, hcol, hact] at hm1

/-- Witness for C2: run construction, assign collider 4, deactivate,
reactivate, assign collider 9, over ambient registry [100]; collider 9 is
registered exactly because the entity is active with collider 9. -/
theorem entity_collider_registration_invariant_witness :
    (∀ c, c ∈ opColliderIds [EntityOp.setCollider (some 4), EntityOp.setActive false,
        EntityOp.setActive true, EntityOp.setCollider (some 9)] → c ∉ [100]) ∧
    (9 ∈ ((EntityWorld.init [100]).runOps [EntityOp.setCollider (some 4),
        EntityOp.setActive false, EntityOp.setActive true,
        EntityOp.setCollider (some 9)]).registry ↔
      ((EntityWorld.init [100]).runOps [EntityOp.setCollider (some 4),
        EntityOp.setActive false, EntityOp.setActive true,
        EntityOp.setCollider (some 9)]).ent.active = true ∧
      ((EntityWorld.init [100]).runOps [EntityOp.setCollider (some 4),
        EntityOp.setActive false, EntityOp.setActive true,
        EntityOp.setCollider (some 9)]).ent.collider = some 9) :=
  ⟨by decide,
   (entity_collider_registration_invariant [100]
      [EntityOp.setCollider (some 4), EntityOp.setActive false,
       EntityOp.setActive true, EntityOp.setCollider (some 9)]
      (by decide)).1 9 (by decide)⟩

/-- C7: register_collider is idempotent (adding twice equals adding once,
the collider is present, no duplicate entry is created), and
unregister_collider is idempotent and safe on a never-registered collider
(no raising path; the registry invariantly has no duplicates, which every
register/unregister-reachable registry satisfies). -/
theorem collider_registry_idempotent (r : List Nat) (c : Nat) :
    (registerCollider (registerCollider r c) c = registerCollider r c) ∧
    (c ∈ registerCollider r c) ∧
    (r.Nodup → (registerCollider r c).Nodup ∧ (registerCollider r c).count c = 1) ∧
    (r.Nodup →
      (unregisterCollider (unregisterCollider r c) c = unregisterCollider r c ∧
        c ∉ unregisterCollider r c)) ∧
    (c ∉ r → unregisterCollider r c = r) := by
  have hmem : c ∈ registerCollider r c := by
    by_cases h : c ∈ r
    · simp [registerCollider, h]
    · simp [registerCollider, h]
  refine ⟨?_, ?_, ?_, ?_, ?_⟩
  · show (if c ∈ registerCollider r c then registerCollider r c
        else registerCollider r c ++ [c]) = registerCollider r c
    rw [if_pos hmem]
  · exact hmem
  · intro hnd
    by_cases h : c ∈ r
    · refine ⟨by simpa [registerCollider, h] using hnd, ?_⟩
      simp only [registerCollider, h, if_true]
      exact List.count_eq_one_of_mem hnd h
    · constructor
      · simp [registerCollider, h, List.nodup_append, hnd]
      · simp [registerCollider, h, List.count_append, List.count_eq_zero.mpr h]
  · intro hnd
    by_cases h : c ∈ r
    · have hng : c ∉ r.erase c := hnd.not_mem_erase
      constructor
      · simp [unregisterCollider, h, hng]
      · simp [unregisterCollider, h, hng]
    · constructor
      · simp [unregisterCollider, h]
      · simp [unregisterCollider, h]
  · intro h
    simp [unregisterCollider, h]

/-- Witness for C7: on the duplicate-free registry [1, 2], registering 2
twice equals registering once with a single entry, unregistering 2 twice
equals unregistering once and leaves 2 absent, and unregistering the
never-registered 3 leaves the registry unchanged. -/
theorem collider_registry_idempotent_witness :
    (List.Nodup [1, 2] ∧
      (registerCollider [1, 2] 2).Nodup ∧ (registerCollider [1, 2] 2).count 2 = 1 ∧
      unregisterCollider (unregisterCollider [1, 2] 2) 2 = unregisterCollider [1, 2] 2 ∧
      2 ∉ unregisterCollider [1, 2] 2) ∧
    (3 ∉ [1, 2] ∧ unregisterCollider [1, 2] 3 = [1, 2]) := by
  refine ⟨⟨by decide, ?_, ?_, ?_, ?_⟩, ⟨by decide, ?_⟩⟩
  · exact ((collider_registry_idempotent [1, 2] 2).2.2.1 (by decide)).1
  · exact ((collider_registry_idempotent [1, 2] 2).2.2.1 (by decide)).2
  · exact ((collider_registry_idempotent [1, 2] 2).2.2.2.1 (by decide)).1
  · exact ((collider_registry_idempotent [1, 2] 2).2.2.2.1 (by decide)).2
  · exact (collider_registry_idempotent [1, 2] 3).2.2.2.2 (by decide)

/-! ### Transform, BoxCollider, and the collision sweep
(src/engine/components/collider.py, src/engine/systems/collusion_system.py) -/

/-- Modelled from the spec: src/engine/components/transform.py is imported
throughout the sources but absent from the repository snapshot; per spec
section 3, Transform is "position (x, y) as numeric coordinates", here
embedded with integer coordinates. -/
structure Transform where
  x : Int
  y : Int
deriving DecidableEq

/-- BoxCollider: axis-aligned width/height (the rect property stores the
pair into width and height). -/
structure BoxCollider where
  width : Int
  height : Int
deriving DecidableEq

/-- An entity as the collision and render systems see it: identity, the
active flag, the collider slot, and the presence or absence of its
Transform component. -/
structure CEntity where
  id : Nat
  active : Bool
  collider : Option BoxCollider
  transform : Option Transform
deriving DecidableEq

/-- BoxCollider.intersects: returns False when either parent entity lacks a
Transform component (the guard precedes every component access, so the
method has no raising path); otherwise the four strict comparisons of the
source, in source order (self_left < other_right, self_right > other_left,
self_top < other_bottom, self_bottom > other_top).  The parent references
of the two colliders are passed explicitly. -/
def BoxCollider.intersects (self : BoxCollider) (selfParent : CEntity)
    (other : BoxCollider) (otherParent : CEntity) : Bool :=
  match selfParent.transform, otherParent.transform with
  | some st, some ot =>
      decide (st.x < ot.x + other.width) && decide (st.x + self.width > ot.x) &&
        decide (st.y < ot.y + other.height) && decide (st.y + self.height > ot.y)
  | _, _ => false

/-- The candidate filter of CollisionSystem.update: active entities owning
a non-null collider and a Transform component, recomputed from the entity
list on every call. -/
def collidableEntities (entities : List CEntity) : List CEntity :=
  entities.filter (fun e => e.active && e.collider.isSome && e.transform.isSome)

/-- The ordered pair traversal of the two nested loops of
CollisionSystem.update: index pairs (i, j) with i < j, in loop order. -/
def pairSweep {α : Type} : List α → List (α × α)
  | [] => []
  | e :: rest => rest.map (fun f => (e, f)) ++ pairSweep rest

/-- One emitted collision event: both entities and both colliders, exactly
the keyword arguments of the emit call in CollisionSystem.update. -/
structure CollisionEvent where
  entityA : CEntity
  entityB : CEntity
  colliderA : BoxCollider
  colliderB : BoxCollider
deriving DecidableEq

/-- Whether the pair of candidates intersects, as update tests it. -/
def pairIntersects (p : CEntity × CEntity) : Bool :=
  match p.1.collider, p.2.collider with
  | some ca, some cb => ca.intersects p.1 cb p.2
  | _, _ => false

/-- The event update emits for an intersecting pair.  The fallback arm is
unreachable: update only reaches the emit through the candidate filter,
which guarantees both colliders are present. -/
def pairEvent (p : CEntity × CEntity) : CollisionEvent :=
  match p.1.collider, p.2.collider with
  | some ca, some cb => CollisionEvent.mk p.1 p.2 ca cb
  | _, _ => CollisionEvent.mk p.1 p.2 (BoxCollider.mk 0 0) (BoxCollider.mk 0 0)

/-- CollisionSystem.update: build the candidate list, scan the ordered
pairs, and emit one event per intersecting pair, in loop order. -/
def CollisionSystem.update (entities : List CEntity) : List CollisionEvent :=
  ((pairSweep (collidableEntities entities)).filter pairIntersects).map pairEvent

theorem pairSweep_mem {α : Type} (l : List α) (p : α × α) (h : p ∈ pairSweep l) :
    p.1 ∈ l ∧ p.2 ∈ l := by
  induction l with
  | nil => simp [pairSweep] at h
  | cons x xs ih =>
      simp only [pairSweep, List.mem_append, List.mem_map] at h
      rcases h with ⟨f, hf, rfl⟩ | h
      · exact ⟨List.mem_cons_self _ _, List.mem_cons_of_mem _ hf⟩
      · obtain ⟨h1, h2⟩ := ih h
        exact ⟨List.mem_cons_of_mem _ h1, List.mem_cons_of_mem _ h2⟩

theorem pairSweep_ne {α : Type} (l : List α) (hnd : l.Nodup) (p : α × α)
    (h : p ∈ pairSweep l) : p.1 ≠ p.2 := by
  induction l with
  | nil => simp [pairSweep] at h
  | cons x xs ih =>
      simp only [pairSweep, List.mem_append, List.mem_map] at h
      rcases h with ⟨f, hf, rfl⟩ | h
      · intro hxe
        rw [List.nodup_cons] at hnd
        apply hnd.1
        rw [show x = f from hxe]
        exact hf
      · exact ih (List.nodup_cons.mp hnd).2 h

theorem pairSweep_length {α : Type} (l : List α) :
    (pairSweep l).length = l.length.choose 2 := by
  induction l with
  | nil => simp [pairSweep]
  | cons x xs ih =>
      simp only [pairSweep, List.length_append, List.length_map, ih, List.length_cons]
      rw [Nat.choose_succ_succ, Nat.choose_one_right]

theorem collidableEntities_mem (es : List CEntity) (e : CEntity) :
    e ∈ collidableEntities es ↔
      e ∈ es ∧ (e.active = true ∧ e.collider.isSome = true ∧ e.transform.isSome = true) := by
  constructor
  · intro h
    rw [collidableEntities, List.mem_filter] at h
    refine ⟨h.1, ?_⟩
    have hb := h.2
    simp only [Bool.and_eq_true] at hb
    exact ⟨hb.1.1, hb.1.2, hb.2⟩
  · intro h
    rw [collidableEntities, List.mem_filter]
    refine ⟨h.1, ?_⟩
    simp only [Bool.and_eq_true]
    exact ⟨⟨h.2.1, h.2.2.1⟩, h.2.2.2⟩

/-- The reference predicate from the spec: the rectangles
[x, x + width) × [y, y + height) of the two colliders overlap with strict
inequalities on all four sides. -/
def specStrictOverlap (t1 : Transform) (c1 : BoxCollider)
    (t2 : Transform) (c2 : BoxCollider) : Prop :=
  t1.x < t2.x + c2.width ∧ t2.x < t1.x + c1.width ∧
    t1.y < t2.y + c2.height ∧ t2.y < t1.y + c1.height

/-- C5: when both parent entities carry a Transform, intersects agrees with
the strict rectangle-overlap reference predicate; consequently two
colliders that exactly touch edges (right edge of the first equal to left
edge of the second) do not intersect; and intersects is symmetric for all
collider pairs, Transforms present or not. -/
theorem intersects_eq_strict_overlap (a b : CEntity) (ca cb : BoxCollider) :
    (∀ ta tb, a.transform = some ta → b.transform = some tb →
      ((ca.intersects a cb b = true ↔ specStrictOverlap ta ca tb cb) ∧
        (ta.x + ca.width = tb.x → ca.intersects a cb b = false))) ∧
    ca.intersects a cb b = cb.intersects b ca a := by
  constructor
  · intro ta tb hta htb
    constructor
    · simp only [BoxCollider.intersects, hta, htb, specStrictOverlap,
        Bool.and_eq_true, decide_eq_true_eq, gt_iff_lt]
      constructor
      · intro h
        exact ⟨h.1.1.1, h.1.1.2, h.1.2, h.2⟩
      · intro h
        exact ⟨⟨⟨h.1, h.2.1⟩, h.2.2.1⟩, h.2.2.2⟩
    · intro hedge
      simp only [BoxCollider.intersects, hta, htb]
      have : ¬ (ta.x + ca.width > tb.x) := by omega
      simp [this]
  · cases hta : a.transform with
    | none =>
        cases htb : b.transform with
        | none => simp [BoxCollider.intersects, hta, htb]
        | some tb => simp [BoxCollider.intersects, hta, htb]
    | some ta =>
        cases htb : b.transform with
        | none => simp [BoxCollider.intersects, hta, htb]
        | some tb =>
            simp only [BoxCollider.intersects, hta, htb]
            rw [Bool.eq_iff_iff]
            simp only [Bool.and_eq_true, decide_eq_true_eq, gt_iff_lt]
            constructor
            · intro h
              exact ⟨⟨⟨h.1.1.2, h.1.1.1⟩, h.2⟩, h.1.2⟩
            · intro h
              exact ⟨⟨⟨h.1.1.2, h.1.1.1⟩, h.2⟩, h.1.2⟩

/-- Witness for C5: entity 1 at (0, 0) with a 10 by 10 collider and entity
2 at (5, 5) with a 10 by 10 collider intersect, matching the reference
predicate. -/
theorem intersects_eq_strict_overlap_witness :
    ((BoxCollider.mk 10 10).intersects
        (CEntity.mk 1 true (some (BoxCollider.mk 10 10)) (some (Transform.mk 0 0)))
        (BoxCollider.mk 10 10)
        (CEntity.mk 2 true (some (BoxCollider.mk 10 10)) (some (Transform.mk 5 5))) = true ↔
      specStrictOverlap (Transform.mk 0 0) (BoxCollider.mk 10 10)
        (Transform.mk 5 5) (BoxCollider.mk 10 10)) :=
  ((intersects_eq_strict_overlap
      (CEntity.mk 1 true (some (BoxCollider.mk 10 10)) (some (Transform.mk 0 0)))
      (CEntity.mk 2 true (some (BoxCollider.mk 10 10)) (some (Transform.mk 5 5)))
      (BoxCollider.mk 10 10) (BoxCollider.mk 10 10)).1
    (Transform.mk 0 0) (Transform.mk 5 5) rfl rfl).1

/-- C6: when either parent entity lacks a Transform component, intersects
returns false; the membership guard runs before any component access, so
the partially-initialized entity is treated as inert rather than causing
an error. -/
theorem intersects_missing_transform_false (a b : CEntity) (ca cb : BoxCollider)
    (h : a.transform = none ∨ b.transform = none) :
    ca.intersects a cb b = false := by
  rcases h with h | h
  · simp [BoxCollider.intersects, h]
  · cases hta : a.transform with
    | none => simp [BoxCollider.intersects, hta]
    | some ta => simp [BoxCollider.intersects, hta, h]

/-- Witness for C6: an entity without a Transform never collides. -/
theorem intersects_missing_transform_false_witness :
    (CEntity.mk 3 true (some (BoxCollider.mk 4 4)) none).transform = none ∧
    (BoxCollider.mk 4 4).intersects
      (CEntity.mk 3 true (some (BoxCollider.mk 4 4)) none)
      (BoxCollider.mk 10 10)
      (CEntity.mk 2 true (some (BoxCollider.mk 10 10)) (some (Transform.mk 5 5))) = false :=
  ⟨rfl,
   intersects_missing_transform_false
     (CEntity.mk 3 true (some (BoxCollider.mk 4 4)) none)
     (CEntity.mk 2 true (some (BoxCollider.mk 10 10)) (some (Transform.mk 5 5)))
     (BoxCollider.mk 4 4) (BoxCollider.mk 10 10) (Or.inl rfl)⟩

/-- An intersects call is symmetric in its two collider/parent pairs. -/
theorem intersects_comm (a b : CEntity) (ca cb : BoxCollider) :
    ca.intersects a cb b = cb.intersects b ca a := by
  cases hta : a.transform with
  | none =>
      cases htb : b.transform with
      | none => simp [BoxCollider.intersects, hta, htb]
      | some tb => simp [BoxCollider.intersects, hta, htb]
  | some ta =>
      cases htb : b.transform with
      | none => simp [BoxCollider.intersects, hta, htb]
      | some tb =>
          simp only [BoxCollider.intersects, hta, htb]
          rw [Bool.eq_iff_iff]
          simp only [Bool.and_eq_true, decide_eq_true_eq, gt_iff_lt]
          constructor
          · intro h
            exact ⟨⟨⟨h.1.1.2, h.1.1.1⟩, h.2⟩, h.1.2⟩
          · intro h
            exact ⟨⟨⟨h.1.1.2, h.1.1.1⟩, h.2⟩, h.1.2⟩

theorem countP_single_of_nodup {α : Type} [DecidableEq α] (xs : List α) (b : α)
    (hnd : xs.Nodup) (hb : b ∈ xs) : xs.countP (fun f => decide (f = b)) = 1 := by
  have h1 : xs.countP (fun f => decide (f = b)) = xs.count b := by
    rw [List.count_eq_countP]
    exact List.countP_congr (fun x _ => by simp)
  rw [h1]
  exact List.count_eq_one_of_mem hnd hb

theorem pairSweep_countP_zero {α : Type} [DecidableEq α] (l : List α) (a b : α)
    (h : a ∉ l ∨ b ∉ l) :
    (pairSweep l).countP (fun p => decide (p = (a, b) ∨ p = (b, a))) = 0 := by
  rw [List.countP_eq_zero]
  intro p hp
  simp only [decide_eq_true_eq]
  intro hor
  obtain ⟨h1, h2⟩ := pairSweep_mem l p hp
  rcases hor with rfl | rfl
  · simp only [] at h1 h2
    rcases h with h | h
    · exact h h1
    · exact h h2
  · simp only [] at h1 h2
    rcases h with h | h
    · exact h h2
    · exact h h1

theorem pairSweep_countP_pair {α : Type} [DecidableEq α] (l : List α) (hnd : l.Nodup)
    (a b : α) (hab : a ≠ b) (hal : a ∈ l) (hbl : b ∈ l) :
    (pairSweep l).countP (fun p => decide (p = (a, b) ∨ p = (b, a))) = 1 := by
  induction l with
  | nil => simp at hal
  | cons x xs ih =>
      rw [List.nodup_cons] at hnd
      simp only [pairSweep, List.countP_append, List.countP_map]
      by_cases hxa : x = a
      · subst hxa
        have hbxs : b ∈ xs := by
          rcases List.mem_cons.mp hbl with h | h
          · exact absurd h.symm hab
          · exact h
        have hmap : xs.countP
            ((fun p => decide (p = (x, b) ∨ p = (b, x))) ∘ (fun f => (x, f))) = 1 := by
          have := List.countP_congr (l := xs)
            (p := (fun p => decide (p = (x, b) ∨ p = (b, x))) ∘ (fun f => (x, f)))
            (q := fun f => decide (f = b))
            (fun f _ => by
              simp only [Function.comp, decide_eq_true_eq, Prod.mk.injEq]
              constructor
              · intro h
                rcases h with h | h
                · exact h.2
                · exact absurd h.1 hab
              · intro h
                exact Or.inl ⟨trivial, h⟩)
          rw [this]
          exact countP_single_of_nodup xs b hnd.2 hbxs
        rw [hmap, pairSweep_countP_zero xs x b (Or.inl hnd.1)]
      · by_cases hxb : x = b
        · subst hxb
          have haxs : a ∈ xs := by
            rcases List.mem_cons.mp hal with h | h
            · exact absurd h (fun he => hxa he.symm)
            · exact h
          have hmap : xs.countP
              ((fun p => decide (p = (a, x) ∨ p = (x, a))) ∘ (fun f => (x, f))) = 1 := by
            have := List.countP_congr (l := xs)
              (p := (fun p => decide (p = (a, x) ∨ p = (x, a))) ∘ (fun f => (x, f)))
              (q := fun f => decide (f = a))
              (fun f _ => by
                simp only [Function.comp, decide_eq_true_eq, Prod.mk.injEq]
                constructor
                · intro h
                  rcases h with h | h
                  · exact absurd h.1 (fun he => hab he.symm)
                  · exact h.2
                · intro h
                  exact Or.inr ⟨trivial, h⟩)
            rw [this]
            exact countP_single_of_nodup xs a hnd.2 haxs
          rw [hmap, pairSweep_countP_zero xs a x (Or.inr hnd.1)]
        · have haxs : a ∈ xs := by
            rcases List.mem_cons.mp hal with h | h
            · exact absurd h (fun he => hxa he.symm)
            · exact h
          have hbxs : b ∈ xs := by
            rcases List.mem_cons.mp hbl with h | h
            · exact absurd h (fun he => hxb he.symm)
            · exact h
          have hmap : xs.countP
              ((fun p => decide (p = (a, b) ∨ p = (b, a))) ∘ (fun f => (x, f))) = 0 := by
            rw [List.countP_eq_zero]
            intro f _
            simp only [Function.comp, decide_eq_true_eq, Prod.mk.injEq]
            intro h
            rcases h with h | h
            · exact hxa h.1
            · exact hxb h.1
          rw [hmap, ih hnd.2 haxs hbxs]

/-- Whether an emitted event carries exactly the unordered pair a, b with
their colliders, in either orientation. -/
def eventMatches (a b : CEntity) (ca cb : BoxCollider) (ev : CollisionEvent) : Bool :=
  decide ((ev.entityA = a ∧ ev.entityB = b ∧ ev.colliderA = ca ∧ ev.colliderB = cb) ∨
    (ev.entityA = b ∧ ev.entityB = a ∧ ev.colliderA = cb ∧ ev.colliderB = ca))

/-- C3: one update call considers exactly the candidates that are active,
own a non-null collider and own a Transform; for every unordered candidate
pair whose colliders intersect it emits exactly one event carrying both
entities and both colliders; and when all candidate pairs intersect the
number of events is choose(N, 2) for N candidates. -/
theorem collision_sweep_complete (es : List CEntity) (hnd : es.Nodup) :
    (∀ e, e ∈ collidableEntities es ↔
      e ∈ es ∧ (e.active = true ∧ e.collider.isSome = true ∧ e.transform.isSome = true)) ∧
    (∀ a b ca cb, a ∈ collidableEntities es → b ∈ collidableEntities es → a ≠ b →
      a.collider = some ca → b.collider = some cb → ca.intersects a cb b = true →
      (CollisionSystem.update es).countP (eventMatches a b ca cb) = 1) ∧
    ((∀ a ∈ collidableEntities es, ∀ b ∈ collidableEntities es, a ≠ b →
        pairIntersects (a, b) = true) →
      (CollisionSystem.update es).length = (collidableEntities es).length.choose 2) := by
  have hcnd : (collidableEntities es).Nodup := List.Nodup.filter _ hnd
  refine ⟨collidableEntities_mem es, ?_, ?_⟩
  · intro a b ca cb ha hb hab hca hcb hint
    have hsymm : cb.intersects b ca a = true := by
      rw [← intersects_comm]
      exact hint
    rw [CollisionSystem.update, List.countP_map, List.countP_filter]
    have hcongr := List.countP_congr (l := pairSweep (collidableEntities es))
      (p := fun p => eventMatches a b ca cb (pairEvent p) && pairIntersects p)
      (q := fun p => decide (p = (a, b) ∨ p = (b, a)))
      (fun p hp => by
        obtain ⟨hp1, hp2⟩ := pairSweep_mem _ p hp
        simp only [Bool.and_eq_true, decide_eq_true_eq]
        constructor
        · intro h
          obtain ⟨hev, hpi⟩ := h
          cases hc1 : p.1.collider with
          | none =>
              rw [collidableEntities_mem] at hp1
              rw [hc1] at hp1
              simp at hp1
          | some c1 =>
              cases hc2 : p.2.collider with
              | none =>
                  rw [collidableEntities_mem] at hp2
                  rw [hc2] at hp2
                  simp at hp2
              | some c2 =>
                  simp only [pairEvent, hc1, hc2, eventMatches, decide_eq_true_eq] at hev
                  rcases hev with ⟨h1, h2, _, _⟩ | ⟨h1, h2, _, _⟩
                  · left
                    rw [← h1, ← h2, Prod.mk.eta]
                  · right
                    rw [← h1, ← h2, Prod.mk.eta]
        · intro h
          rcases h with rfl | rfl
          · constructor
            · simp [pairEvent, eventMatches, hca, hcb]
            · simp only [pairIntersects]
              simp only [hca, hcb]
              exact hint
          · constructor
            · simp [pairEvent, eventMatches, hca, hcb]
            · simp only [pairIntersects]
              simp only [hca, hcb]
              exact hsymm)
    rw [Function.comp_def]
    rw [hcongr]
    exact pairSweep_countP_pair (collidableEntities es) hcnd a b hab ha hb
  · intro hall
    rw [CollisionSystem.update, List.length_map]
    have hfilter : (pairSweep (collidableEntities es)).filter pairIntersects =
        pairSweep (collidableEntities es) := by
      rw [List.filter_eq_self]
      intro p hp
      obtain ⟨hp1, hp2⟩ := pairSweep_mem _ p hp
      have hne := pairSweep_ne _ hcnd p hp
      have := hall p.1 hp1 p.2 hp2 hne
      rw [Prod.mk.eta] at this
      exact this
    rw [hfilter, pairSweep_length]

/-- Witness for C3: three active entities at (0,0), (5,5), (3,3) with
10 by 10 colliders pairwise overlap; the pair of the first two gets exactly
one event, and the total event count is choose(3, 2) = 3. -/
theorem collision_sweep_complete_witness :
    (List.Nodup [CEntity.mk 1 true (some (BoxCollider.mk 10 10)) (some (Transform.mk 0 0)),
      CEntity.mk 2 true (some (BoxCollider.mk 10 10)) (some (Transform.mk 5 5)),
      CEntity.mk 3 true (some (BoxCollider.mk 10 10)) (some (Transform.mk 3 3))]) ∧
    ((CollisionSystem.update
        [CEntity.mk 1 true (some (BoxCollider.mk 10 10)) (some (Transform.mk 0 0)),
         CEntity.mk 2 true (some (BoxCollider.mk 10 10)) (some (Transform.mk 5 5)),
         CEntity.mk 3 true (some (BoxCollider.mk 10 10)) (some (Transform.mk 3 3))]).countP
      (eventMatches
        (CEntity.mk 1 true (some (BoxCollider.mk 10 10)) (some (Transform.mk 0 0)))
        (CEntity.mk 2 true (some (BoxCollider.mk 10 10)) (some (Transform.mk 5 5)))
        (BoxCollider.mk 10 10) (BoxCollider.mk 10 10)) = 1) ∧
    ((CollisionSystem.update
        [CEntity.mk 1 true (some (BoxCollider.mk 10 10)) (some (Transform.mk 0 0)),
         CEntity.mk 2 true (some (BoxCollider.mk 10 10)) (some (Transform.mk 5 5)),
         CEntity.mk 3 true (some (BoxCollider.mk 10 10)) (some (Transform.mk 3 3))]).length =
      (collidableEntities
        [CEntity.mk 1 true (some (BoxCollider.mk 10 10)) (some (Transform.mk 0 0)),
         CEntity.mk 2 true (some (BoxCollider.mk 10 10)) (some (Transform.mk 5 5)),
         CEntity.mk 3 true (some (BoxCollider.mk 10 10)) (some (Transform.mk 3 3))]).length.choose 2) :=
  ⟨by decide,
   (collision_sweep_complete
      [CEntity.mk 1 true (some (BoxCollider.mk 10 10)) (some (Transform.mk 0 0)),
       CEntity.mk 2 true (some (BoxCollider.mk 10 10)) (some (Transform.mk 5 5)),
       CEntity.mk 3 true (some (BoxCollider.mk 10 10)) (some (Transform.mk 3 3))]
      (by decide)).2.1
     (CEntity.mk 1 true (some (BoxCollider.mk 10 10)) (some (Transform.mk 0 0)))
     (CEntity.mk 2 true (some (BoxCollider.mk 10 10)) (some (Transform.mk 5 5)))
     (BoxCollider.mk 10 10) (BoxCollider.mk 10 10)
     (by decide) (by decide) (by decide) rfl rfl (by decide),
   (collision_sweep_complete
      [CEntity.mk 1 true (some (BoxCollider.mk 10 10)) (some (Transform.mk 0 0)),
       CEntity.mk 2 true (some (BoxCollider.mk 10 10)) (some (Transform.mk 5 5)),
       CEntity.mk 3 true (some (BoxCollider.mk 10 10)) (some (Transform.mk 3 3))]
      (by decide)).2.2 (by decide)⟩

/-! ### DrawDepth, Render, and the render iteration
(src/engine/components/drawables.py, src/engine/components/render.py,
src/engine/systems/render_system.py) -/

/-- The DrawDepth enumeration with its fixed ordinal values. -/
inductive DrawDepth where
  | BACKGROUND
  | TERRAIN
  | OBJECT
  | UI
  | DEFAULT
deriving DecidableEq

/-- The Enum value used as the sort key. -/
def DrawDepth.value : DrawDepth → Nat
  | DrawDepth.BACKGROUND => 0
  | DrawDepth.TERRAIN => 1
  | DrawDepth.OBJECT => 2
  | DrawDepth.UI => 3
  | DrawDepth.DEFAULT => 4

/-- Render component: visibility flag, nullable texture handle, draw
depth. -/
structure Render where
  visible : Bool
  texture : Option Nat
  draw_depth : DrawDepth
deriving DecidableEq

/-- An entity as the render system sees it. -/
structure REntity where
  id : Nat
  active : Bool
  transform : Option Transform
  render : Option Render
deriving DecidableEq

/-- The drawable test of RenderSystem.update: active, Transform and Render
components present, Render visible with a non-null texture. -/
def drawableFilter (e : REntity) : Bool :=
  e.active && e.transform.isSome &&
    (match e.render with
     | some r => r.visible && r.texture.isSome
     | none => false)

/-- The sort key of RenderSystem.update:
entity.components[Render].draw_depth.value.  The fallback arm is
unreachable because the key is only taken on entities that passed the
drawable filter, which requires a Render component. -/
def renderKey (e : REntity) : Nat :=
  match e.render with
  | some r => r.draw_depth.value
  | none => DrawDepth.DEFAULT.value

/-- RenderSystem.update, steps 2 and 3: collect the drawable entities in
entity-list order, then sort ascending by draw-depth value.  Python
list.sort is a stable ascending sort; insertionSort with the non-strict
key order is also stable and ascending, hence extensionally the same
function on every input.  Step 4 then blits in exactly this order. -/
def RenderSystem.drawList (es : List REntity) : List REntity :=
  (es.filter drawableFilter).insertionSort (fun a b => renderKey a ≤ renderKey b)

/-- C9: the per-frame drawable iteration contains exactly the entities that
are active with both Transform and Render components, visible, and
non-null texture; it is sorted ascending by draw-depth ordinal; the
ordinals are BACKGROUND = 0 < TERRAIN < OBJECT < UI < DEFAULT; and three
entities with depths [UI, BACKGROUND, OBJECT] are drawn in the order
[BACKGROUND, OBJECT, UI]. -/
theorem render_draw_ordering (es : List REntity) :
    ((RenderSystem.drawList es).Perm (es.filter drawableFilter) ∧
      (∀ e, e ∈ RenderSystem.drawList es ↔
        e ∈ es ∧ e.active = true ∧ e.transform.isSome = true ∧
          (∃ r, e.render = some r ∧ r.visible = true ∧ r.texture.isSome = true))) ∧
    ((RenderSystem.drawList es).Pairwise (fun a b => renderKey a ≤ renderKey b)) ∧
    (DrawDepth.BACKGROUND.value = 0 ∧
      DrawDepth.BACKGROUND.value < DrawDepth.TERRAIN.value ∧
      DrawDepth.TERRAIN.value < DrawDepth.OBJECT.value ∧
      DrawDepth.OBJECT.value < DrawDepth.UI.value ∧
      DrawDepth.UI.value < DrawDepth.DEFAULT.value) ∧
    (RenderSystem.drawList
        [REntity.mk 1 true (some (Transform.mk 0 0)) (some (Render.mk true (some 7) DrawDepth.UI)),
         REntity.mk 2 true (some (Transform.mk 0 0)) (some (Render.mk true (some 7) DrawDepth.BACKGROUND)),
         REntity.mk 3 true (some (Transform.mk 0 0)) (some (Render.mk true (some 7) DrawDepth.OBJECT))] =
      [REntity.mk 2 true (some (Transform.mk 0 0)) (some (Render.mk true (some 7) DrawDepth.BACKGROUND)),
       REntity.mk 3 true (some (Transform.mk 0 0)) (some (Render.mk true (some 7) DrawDepth.OBJECT)),
       REntity.mk 1 true (some (Transform.mk 0 0)) (some (Render.mk true (some 7) DrawDepth.UI))]) := by
  refine ⟨⟨List.perm_insertionSort _ _, ?_⟩, ?_, by decide, by decide⟩
  · intro e
    rw [RenderSystem.drawList]
    rw [(List.perm_insertionSort (fun a b => renderKey a ≤ renderKey b)
      (es.filter drawableFilter)).mem_iff]
    rw [List.mem_filter]
    constructor
    · intro h
      refine ⟨h.1, ?_⟩
      have hb := h.2
      simp only [drawableFilter, Bool.and_eq_true] at hb
      obtain ⟨⟨h1, h2⟩, h3⟩ := hb
      cases hr : e.render with
      | none => rw [hr] at h3; simp at h3
      | some r =>
          rw [hr] at h3
          simp only [Bool.and_eq_true] at h3
          exact ⟨h1, h2, r, rfl, h3.1, h3.2⟩
    · intro h
      obtain ⟨hmem, h1, h2, r, hr, h3, h4⟩ := h
      refine ⟨hmem, ?_⟩
      simp only [drawableFilter, Bool.and_eq_true, hr]
      exact ⟨⟨h1, h2⟩, by simp [h3, h4]⟩
  · haveI : IsTotal REntity (fun a b => renderKey a ≤ renderKey b) :=
      IsTotal.mk (fun a b => Nat.le_total (renderKey a) (renderKey b))
    haveI : IsTrans REntity (fun a b => renderKey a ≤ renderKey b) :=
      IsTrans.mk (fun a b c hab hbc => Nat.le_trans hab hbc)
    exact List.sorted_insertionSort (fun a b => renderKey a ≤ renderKey b)
      (es.filter drawableFilter)

/-! ### Scene lifecycle and SceneManager
(src/engine/scene.py, src/engine/scene_manager.py)

Entities are modelled by ids.  The listener lists of all buses are
flattened into one list of (bus id, listener id) pairs: appending a pair
is exactly EventBus.subscribe on that bus, and removing the first
occurrence of a pair is exactly EventBus.unsubscribe (list.remove of the
listener) on that bus, while every other bus is untouched.  The collider
side effect of the deactivation performed during entity destruction
concerns only the collider registry, which the EntityWorld section models;
this model carries the engine state the claim is about: the global entity
list and the bus subscriptions. -/

abbrev Sub := Nat × Nat

structure World where
  entities : List Nat
  subs : List Sub
deriving DecidableEq

structure SceneSt where
  tracked : List Nat
  listeners : List Sub
deriving DecidableEq

/-- One step of a concrete scene load() body, restricted as in the claim
to the tracked helpers: create_entity and subscribe. -/
inductive LoadAction where
  | createEntity (e : Nat)
  | subscribe (p : Sub)
deriving DecidableEq

/-- Scene.create_entity: append the fresh instance to the engine-global
entity list unless already present, then add_entity appends it to the
scene tracking list unless already present. -/
def Scene.createEntity (w : World) (sc : SceneSt) (e : Nat) : World × SceneSt :=
  (if e ∈ w.entities then w else World.mk (w.entities ++ [e]) w.subs,
   if e ∈ sc.tracked then sc else SceneSt.mk (sc.tracked ++ [e]) sc.listeners)

/-- Scene.subscribe: EventBus.subscribe (append on that bus) plus tracking
of the (bus, listener) pair. -/
def Scene.subscribeSub (w : World) (sc : SceneSt) (p : Sub) : World × SceneSt :=
  (World.mk w.entities (w.subs ++ [p]),
   SceneSt.mk sc.tracked (sc.listeners ++ [p]))

/-- A concrete scene load(): run its create/subscribe steps in order. -/
def Scene.load (w : World) (sc : SceneSt) (acts : List LoadAction) : World × SceneSt :=
  acts.foldl
    (fun ws a =>
      match a with
      | LoadAction.createEntity e => Scene.createEntity ws.1 ws.2 e
      | LoadAction.subscribe p => Scene.subscribeSub ws.1 ws.2 p)
    (w, sc)

/-- The try/except body of Scene.unsubscribe_all around one
EventBus.unsubscribe call: a ValueError from list.remove is absorbed,
leaving that bus unchanged. -/
def tryUnsubscribe (subs : List Sub) (p : Sub) : List Sub :=
  match pyListRemove subs p with
  | Except.ok subs2 => subs2
  | Except.error _ => subs

/-- Scene.unsubscribe_all: attempt each tracked unsubscription in order,
absorbing individual failures, then clear the tracking list. -/
def Scene.unsubscribeAll (w : World) (sc : SceneSt) : World × SceneSt :=
  (World.mk w.entities (sc.listeners.foldl tryUnsubscribe w.subs),
   SceneSt.mk sc.tracked [])

/-- Scene.destroy_entity: remove from scene tracking, deactivate (collider
registry effect, modelled in the EntityWorld section), remove from the
engine list; both list removals are membership-guarded, hence erase. -/
def Scene.destroyEntity (w : World) (sc : SceneSt) (e : Nat) : World × SceneSt :=
  (World.mk (removeFirst w.entities e) w.subs,
   SceneSt.mk (removeFirst sc.tracked e) sc.listeners)

/-- Scene.destroy_all_entities: destroy each tracked entity, iterating a
copy of the tracking list, then clear it. -/
def Scene.destroyAllEntities (w : World) (sc : SceneSt) : World × SceneSt :=
  ((sc.tracked.foldl (fun ws e => Scene.destroyEntity ws.1 ws.2 e) (w, sc)).1,
   SceneSt.mk [] sc.listeners)

/-- Scene.unload (the base behavior every concrete scene runs):
unsubscribe_all, then destroy_all_entities. -/
def Scene.unload (w : World) (sc : SceneSt) : World × SceneSt :=
  Scene.destroyAllEntities (Scene.unsubscribeAll w sc).1 (Scene.unsubscribeAll w sc).2

/-- The entity ids a load() body creates. -/
def createdIds (acts : List LoadAction) : List Nat :=
  acts.filterMap
    (fun a =>
      match a with
      | LoadAction.createEntity e => some e
      | LoadAction.subscribe _ => none)

/-- The (bus, listener) pairs a load() body subscribes. -/
def subscribedSubs (acts : List LoadAction) : List Sub :=
  acts.filterMap
    (fun a =>
      match a with
      | LoadAction.createEntity _ => none
      | LoadAction.subscribe p => some p)

/-- A registered scene: its load() body and its instance state. -/
structure SceneData where
  loadActions : List LoadAction
  st : SceneSt
deriving DecidableEq

/-- SceneManager state: the engine world, the name-to-scene registry, and
the name of the active scene (the active_scene reference aliases the
registry entry of that name). -/
structure SMState where
  world : World
  scenes : List (String × SceneData)
  activeName : Option String
deriving DecidableEq

/-- Write back the (mutated-in-place) scene instance stored under a name. -/
def updateScene (scs : List (String × SceneData)) (n : String) (sd : SceneData) :
    List (String × SceneData) :=
  scs.map (fun q => if q.1 = n then (n, sd) else q)

/-- The unload phase of set_active_scene: when a scene is active, run its
unload and store its updated instance state. -/
def SMState.unloadCurrent (m : SMState) : SMState :=
  match m.activeName with
  | some cur =>
      match m.scenes.lookup cur with
      | some sd =>
          SMState.mk (Scene.unload m.world sd.st).1
            (updateScene m.scenes cur (SceneData.mk sd.loadActions (Scene.unload m.world sd.st).2))
            m.activeName
      | none => m
  | none => m

/-- The load phase of set_active_scene: record the new active name and run
the incoming scene load(). -/
def SMState.loadNamed (m : SMState) (name : String) : SMState :=
  match m.scenes.lookup name with
  | some sd =>
      SMState.mk (Scene.load m.world sd.st sd.loadActions).1
        (updateScene m.scenes name
          (SceneData.mk sd.loadActions (Scene.load m.world sd.st sd.loadActions).2))
        (some name)
  | none => m

/-- SceneManager.set_active_scene: no-op when the name is unregistered or
already active; otherwise unload the current scene (if any) strictly
before loading the new one. -/
def SMState.setActiveScene (m : SMState) (name : String) : SMState :=
  if (m.scenes.lookup name).isNone then m
  else if m.activeName = some name then m
  else SMState.loadNamed (SMState.unloadCurrent m) name

theorem removeFirst_not_mem {α : Type} [DecidableEq α] (l : List α) (a : α)
    (h : a ∉ l) : removeFirst l a = l := by
  induction l with
  | nil => rfl
  | cons x xs ih =>
      rw [List.mem_cons, not_or] at h
      rw [removeFirst, if_neg (fun he => h.1 he.symm), ih h.2]

theorem tryUnsubscribe_eq_removeFirst (subs : List Sub) (p : Sub) :
    tryUnsubscribe subs p = removeFirst subs p := by
  by_cases h : p ∈ subs
  · unfold tryUnsubscribe pyListRemove
    rw [if_pos h]
  · unfold tryUnsubscribe pyListRemove
    rw [if_neg h, removeFirst_not_mem subs p h]

theorem foldl_tryUnsubscribe_eq_removeFirst (ls : List Sub) (l : List Sub) :
    ls.foldl tryUnsubscribe l = ls.foldl removeFirst l := by
  induction ls generalizing l with
  | nil => rfl
  | cons q qs ih =>
      show qs.foldl tryUnsubscribe (tryUnsubscribe l q) = _
      rw [tryUnsubscribe_eq_removeFirst]
      exact ih (removeFirst l q)

/-- Occurrence count, used to reason about removal folds. -/
def cnt {α : Type} [DecidableEq α] (l : List α) (e : α) : Nat :=
  l.countP (fun x => decide (x = e))

theorem cnt_eq_zero {α : Type} [DecidableEq α] (l : List α) (e : α) :
    cnt l e = 0 ↔ e ∉ l := by
  rw [cnt, List.countP_eq_zero]
  constructor
  · intro h hmem
    exact absurd (by simp) (fun hh => h e hmem hh)
  · intro h a ha
    simp only [decide_eq_true_eq]
    intro he
    exact h (he ▸ ha)

theorem cnt_append {α : Type} [DecidableEq α] (l1 l2 : List α) (e : α) :
    cnt (l1 ++ l2) e = cnt l1 e + cnt l2 e :=
  List.countP_append _ l1 l2

theorem cnt_cons {α : Type} [DecidableEq α] (x : α) (xs : List α) (e : α) :
    cnt (x :: xs) e = cnt xs e + (if x = e then 1 else 0) := by
  rw [cnt, List.countP_cons, cnt]
  by_cases hx : x = e
  · simp [hx]
  · simp [hx]

theorem cnt_removeFirst_ne {α : Type} [DecidableEq α] (l : List α) (q e : α)
    (h : q ≠ e) : cnt (removeFirst l q) e = cnt l e := by
  induction l with
  | nil => rfl
  | cons x xs ih =>
      rw [removeFirst]
      by_cases hx : x = q
      · rw [if_pos hx, cnt_cons]
        have hxe : x ≠ e := by
          rw [hx]
          exact h
        simp [hxe]
      · rw [if_neg hx, cnt_cons, cnt_cons, ih]

theorem cnt_removeFirst_self {α : Type} [DecidableEq α] (l : List α) (e : α)
    (h : e ∈ l) : cnt (removeFirst l e) e = cnt l e - 1 := by
  induction l with
  | nil => simp at h
  | cons x xs ih =>
      rw [removeFirst]
      by_cases hx : x = e
      · rw [if_pos hx, cnt_cons]
        simp [hx]
      · have hxs : e ∈ xs := by
          rcases List.mem_cons.mp h with h1 | h1
          · exact absurd h1.symm hx
          · exact h1
        rw [if_neg hx, cnt_cons, cnt_cons, ih hxs]
        simp [hx]

theorem cnt_foldl_removeFirst {α : Type} [DecidableEq α] (ts : List α) (l : List α) (e : α) :
    cnt (ts.foldl removeFirst l) e = cnt l e - cnt ts e := by
  induction ts generalizing l with
  | nil => simp [cnt]
  | cons q qs ih =>
      show cnt (qs.foldl removeFirst (removeFirst l q)) e = _
      rw [ih (removeFirst l q), cnt_cons]
      by_cases hq : q = e
      · subst hq
        by_cases hmem : q ∈ l
        · rw [cnt_removeFirst_self l q hmem]
          simp
          omega
        · rw [removeFirst_not_mem l q hmem]
          have h0 : cnt l q = 0 := (cnt_eq_zero l q).mpr hmem
          rw [h0]
          simp
      · rw [cnt_removeFirst_ne l q e hq]
        simp [hq]


theorem createEntity_fields (w : World) (sc : SceneSt) (e : Nat) :
    (Scene.createEntity w sc e).1.subs = w.subs ∧
    (Scene.createEntity w sc e).2.listeners = sc.listeners ∧
    (Scene.createEntity w sc e).1.entities =
      (if e ∈ w.entities then w.entities else w.entities ++ [e]) ∧
    (Scene.createEntity w sc e).2.tracked =
      (if e ∈ sc.tracked then sc.tracked else sc.tracked ++ [e]) := by
  refine ⟨?_, ?_, ?_, ?_⟩
  · by_cases h : e ∈ w.entities
    · simp [Scene.createEntity, h]
    · simp [Scene.createEntity, h]
  · by_cases h : e ∈ sc.tracked
    · simp [Scene.createEntity, h]
    · simp [Scene.createEntity, h]
  · by_cases h : e ∈ w.entities
    · simp [Scene.createEntity, h]
    · simp [Scene.createEntity, h]
  · by_cases h : e ∈ sc.tracked
    · simp [Scene.createEntity, h]
    · simp [Scene.createEntity, h]

theorem load_subs_listeners (acts : List LoadAction) :
    ∀ (w : World) (sc : SceneSt),
      (Scene.load w sc acts).1.subs = w.subs ++ subscribedSubs acts ∧
      (Scene.load w sc acts).2.listeners = sc.listeners ++ subscribedSubs acts := by
  induction acts with
  | nil =>
      intro w sc
      simp [Scene.load, subscribedSubs]
  | cons a rest ih =>
      intro w sc
      cases a with
      | createEntity e =>
          have hstep : Scene.load w sc (LoadAction.createEntity e :: rest) =
              Scene.load (Scene.createEntity w sc e).1 (Scene.createEntity w sc e).2 rest := rfl
          rw [hstep]
          have hsubs := subscribedSubs
          obtain ⟨h1, h2⟩ := ih (Scene.createEntity w sc e).1 (Scene.createEntity w sc e).2
          obtain ⟨hc1, hc2, _, _⟩ := createEntity_fields w sc e
          rw [h1, h2, hc1, hc2]
          constructor
          · rfl
          · rfl
      | subscribe p =>
          have hstep : Scene.load w sc (LoadAction.subscribe p :: rest) =
              Scene.load (Scene.subscribeSub w sc p).1 (Scene.subscribeSub w sc p).2 rest := rfl
          rw [hstep]
          obtain ⟨h1, h2⟩ := ih (Scene.subscribeSub w sc p).1 (Scene.subscribeSub w sc p).2
          rw [h1, h2]
          constructor
          · show (w.subs ++ [p]) ++ subscribedSubs rest = w.subs ++ subscribedSubs (LoadAction.subscribe p :: rest)
            rw [List.append_assoc]
            rfl
          · show (sc.listeners ++ [p]) ++ subscribedSubs rest =
              sc.listeners ++ subscribedSubs (LoadAction.subscribe p :: rest)
            rw [List.append_assoc]
            rfl

theorem load_mem (acts : List LoadAction) :
    ∀ (w : World) (sc : SceneSt) (e : Nat),
      (e ∈ (Scene.load w sc acts).1.entities ↔ e ∈ w.entities ∨ e ∈ createdIds acts) ∧
      (e ∈ (Scene.load w sc acts).2.tracked ↔ e ∈ sc.tracked ∨ e ∈ createdIds acts) := by
  induction acts with
  | nil =>
      intro w sc e
      simp [Scene.load, createdIds]
  | cons a rest ih =>
      intro w sc e
      cases a with
      | createEntity e2 =>
          have hstep : Scene.load w sc (LoadAction.createEntity e2 :: rest) =
              Scene.load (Scene.createEntity w sc e2).1 (Scene.createEntity w sc e2).2 rest := rfl
          rw [hstep]
          obtain ⟨h1, h2⟩ := ih (Scene.createEntity w sc e2).1 (Scene.createEntity w sc e2).2 e
          obtain ⟨_, _, hc3, hc4⟩ := createEntity_fields w sc e2
          have hcreated : createdIds (LoadAction.createEntity e2 :: rest) = e2 :: createdIds rest := rfl
          rw [hcreated]
          constructor
          · rw [h1, hc3]
            by_cases hm : e2 ∈ w.entities
            · rw [if_pos hm]
              constructor
              · intro h
                rcases h with h | h
                · exact Or.inl h
                · exact Or.inr (List.mem_cons_of_mem _ h)
              · intro h
                rcases h with h | h
                · exact Or.inl h
                · rcases List.mem_cons.mp h with h3 | h3
                  · exact Or.inl (h3 ▸ hm)
                  · exact Or.inr h3
            · rw [if_neg hm]
              simp only [List.mem_append, List.mem_cons, List.not_mem_nil, or_false]
              tauto
          · rw [h2, hc4]
            by_cases hm : e2 ∈ sc.tracked
            · rw [if_pos hm]
              constructor
              · intro h
                rcases h with h | h
                · exact Or.inl h
                · exact Or.inr (List.mem_cons_of_mem _ h)
              · intro h
                rcases h with h | h
                · exact Or.inl h
                · rcases List.mem_cons.mp h with h3 | h3
                  · exact Or.inl (h3 ▸ hm)
                  · exact Or.inr h3
            · rw [if_neg hm]
              simp only [List.mem_append, List.mem_cons, List.not_mem_nil, or_false]
              tauto
      | subscribe p =>
          have hstep : Scene.load w sc (LoadAction.subscribe p :: rest) =
              Scene.load (Scene.subscribeSub w sc p).1 (Scene.subscribeSub w sc p).2 rest := rfl
          rw [hstep]
          obtain ⟨h1, h2⟩ := ih (Scene.subscribeSub w sc p).1 (Scene.subscribeSub w sc p).2 e
          have hcreated : createdIds (LoadAction.subscribe p :: rest) = createdIds rest := rfl
          rw [hcreated]
          exact ⟨h1, h2⟩

theorem cnt_pos_of_mem {α : Type} [DecidableEq α] (l : List α) (e : α) (h : e ∈ l) :
    1 ≤ cnt l e := by
  rcases Nat.eq_zero_or_pos (cnt l e) with h0 | h0
  · exact absurd h ((cnt_eq_zero l e).mp h0)
  · exact h0

theorem cnt_append_singleton_self {α : Type} [DecidableEq α] (l : List α) (e : α) :
    cnt (l ++ [e]) e = cnt l e + 1 := by
  rw [cnt_append]
  have : cnt [e] e = 1 := by
    rw [show ([e] : List α) = e :: [] from rfl, cnt_cons]
    simp [cnt]
  rw [this]

theorem cnt_append_singleton_ne {α : Type} [DecidableEq α] (l : List α) (e2 e : α)
    (h : e2 ≠ e) : cnt (l ++ [e2]) e = cnt l e := by
  rw [cnt_append]
  have : cnt [e2] e = 0 := by
    rw [show ([e2] : List α) = e2 :: [] from rfl, cnt_cons]
    simp [cnt, h]
  rw [this]
  simp

theorem load_cnt (acts : List LoadAction) :
    ∀ (w : World) (sc : SceneSt) (e : Nat),
      cnt w.entities e = cnt sc.tracked e → cnt w.entities e ≤ 1 →
      (cnt (Scene.load w sc acts).1.entities e = cnt (Scene.load w sc acts).2.tracked e ∧
        cnt (Scene.load w sc acts).1.entities e ≤ 1) := by
  induction acts with
  | nil =>
      intro w sc e heq hle
      exact ⟨heq, hle⟩
  | cons a rest ih =>
      intro w sc e heq hle
      cases a with
      | createEntity e2 =>
          have hstep : Scene.load w sc (LoadAction.createEntity e2 :: rest) =
              Scene.load (Scene.createEntity w sc e2).1 (Scene.createEntity w sc e2).2 rest := rfl
          rw [hstep]
          obtain ⟨_, _, hc3, hc4⟩ := createEntity_fields w sc e2
          by_cases he : e2 = e
          · subst he
            by_cases hm : e2 ∈ w.entities
            · have hmt : e2 ∈ sc.tracked := by
                by_contra hnt
                have h0 : cnt sc.tracked e2 = 0 := (cnt_eq_zero sc.tracked e2).mpr hnt
                have h1 := cnt_pos_of_mem w.entities e2 hm
                omega
              apply ih
              · rw [hc3, hc4, if_pos hm, if_pos hmt]
                exact heq
              · rw [hc3, if_pos hm]
                exact hle
            · have hnt : e2 ∉ sc.tracked := by
                intro hmt
                have h0 : cnt w.entities e2 = 0 := (cnt_eq_zero w.entities e2).mpr hm
                have h1 := cnt_pos_of_mem sc.tracked e2 hmt
                omega
              have h0w : cnt w.entities e2 = 0 := (cnt_eq_zero w.entities e2).mpr hm
              apply ih
              · rw [hc3, hc4, if_neg hm, if_neg hnt,
                  cnt_append_singleton_self, cnt_append_singleton_self, heq]
              · rw [hc3, if_neg hm, cnt_append_singleton_self, h0w]
          · apply ih
            · rw [hc3, hc4]
              by_cases hm : e2 ∈ w.entities
              · rw [if_pos hm]
                by_cases hmt : e2 ∈ sc.tracked
                · rw [if_pos hmt]
                  exact heq
                · rw [if_neg hmt, cnt_append_singleton_ne sc.tracked e2 e he, heq]
              · rw [if_neg hm, cnt_append_singleton_ne w.entities e2 e he]
                by_cases hmt : e2 ∈ sc.tracked
                · rw [if_pos hmt]
                  exact heq
                · rw [if_neg hmt, cnt_append_singleton_ne sc.tracked e2 e he, heq]
            · rw [hc3]
              by_cases hm : e2 ∈ w.entities
              · rw [if_pos hm]
                exact hle
              · rw [if_neg hm, cnt_append_singleton_ne w.entities e2 e he]
                exact hle
      | subscribe p =>
          have hstep : Scene.load w sc (LoadAction.subscribe p :: rest) =
              Scene.load (Scene.subscribeSub w sc p).1 (Scene.subscribeSub w sc p).2 rest := rfl
          rw [hstep]
          exact ih (Scene.subscribeSub w sc p).1 (Scene.subscribeSub w sc p).2 e heq hle

theorem destroyFold_spec (ts : List Nat) :
    ∀ (w : World) (sc : SceneSt),
      (ts.foldl (fun ws e => Scene.destroyEntity ws.1 ws.2 e) (w, sc)).1 =
        World.mk (ts.foldl removeFirst w.entities) w.subs ∧
      (ts.foldl (fun ws e => Scene.destroyEntity ws.1 ws.2 e) (w, sc)).2.listeners =
        sc.listeners := by
  induction ts with
  | nil =>
      intro w sc
      exact ⟨rfl, rfl⟩
  | cons t rest ih =>
      intro w sc
      have hstep : (t :: rest).foldl (fun ws e => Scene.destroyEntity ws.1 ws.2 e) (w, sc) =
          rest.foldl (fun ws e => Scene.destroyEntity ws.1 ws.2 e)
            (Scene.destroyEntity w sc t) := rfl
      rw [hstep]
      exact ih (Scene.destroyEntity w sc t).1 (Scene.destroyEntity w sc t).2

theorem destroyAllEntities_spec (w : World) (sc : SceneSt) :
    Scene.destroyAllEntities w sc =
      (World.mk (sc.tracked.foldl removeFirst w.entities) w.subs,
       SceneSt.mk [] sc.listeners) := by
  rw [Scene.destroyAllEntities]
  obtain ⟨h1, _⟩ := destroyFold_spec sc.tracked w sc
  rw [h1]

theorem unsubscribeAll_spec (w : World) (sc : SceneSt) :
    Scene.unsubscribeAll w sc =
      (World.mk w.entities (sc.listeners.foldl removeFirst w.subs),
       SceneSt.mk sc.tracked []) := by
  rw [Scene.unsubscribeAll, foldl_tryUnsubscribe_eq_removeFirst]

theorem unload_spec (w : World) (sc : SceneSt) :
    Scene.unload w sc =
      (World.mk (sc.tracked.foldl removeFirst w.entities)
        (sc.listeners.foldl removeFirst w.subs),
       SceneSt.mk [] []) := by
  rw [Scene.unload, unsubscribeAll_spec]
  rw [destroyAllEntities_spec]

theorem lookup_updateScene_self (scs : List (String × SceneData)) (n : String)
    (sd : SceneData) (h : (scs.lookup n).isSome = true) :
    (updateScene scs n sd).lookup n = some sd := by
  induction scs with
  | nil => simp [List.lookup] at h
  | cons q rest ih =>
      rw [updateScene, List.map_cons]
      by_cases hq : q.1 = n
      · rw [if_pos hq]
        simp [List.lookup]
      · rw [if_neg hq]
        have hbeq : (n == q.1) = false := by
          simp
          exact fun he => hq he.symm
        rw [List.lookup, hbeq]
        show (updateScene rest n sd).lookup n = some sd
        apply ih
        rw [List.lookup, hbeq] at h
        exact h

theorem lookup_updateScene_ne (scs : List (String × SceneData)) (n n2 : String)
    (sd : SceneData) (h : n2 ≠ n) :
    (updateScene scs n sd).lookup n2 = scs.lookup n2 := by
  induction scs with
  | nil => rfl
  | cons q rest ih =>
      rw [updateScene, List.map_cons]
      by_cases hq : q.1 = n
      · rw [if_pos hq]
        have hbeq : (n2 == n) = false := by simp [h]
        have hbeq2 : (n2 == q.1) = false := by
          rw [hq]
          exact hbeq
        rw [List.lookup, hbeq, List.lookup, hbeq2]
        exact ih
      · rw [if_neg hq]
        rw [List.lookup, List.lookup]
        by_cases hb : n2 = q.1
        · have : (n2 == q.1) = true := by simp [hb]
          rw [this]
        · have : (n2 == q.1) = false := by simp [hb]
          rw [this]
          exact ih

/-- C10: Scene.unsubscribe_all attempts every tracked (bus, listener)
unsubscription in order; an individual unsubscribe that raises (its pair
absent from the bus) is absorbed by the try/except, leaving that bus
unchanged for that attempt; the whole operation is a total function (no
exception propagates) that always ends with the tracking list empty, the
bus state being the original one with the first match of each tracked pair
removed. -/
theorem unsubscribe_all_absorbs_and_clears (w : World) (sc : SceneSt) :
    ((Scene.unsubscribeAll w sc).2.listeners = []) ∧
    ((Scene.unsubscribeAll w sc).1.subs = sc.listeners.foldl removeFirst w.subs) ∧
    ((Scene.unsubscribeAll w sc).1.entities = w.entities) ∧
    (∀ (subs : List Sub) (p : Sub),
      pyListRemove subs p = Except.error () → tryUnsubscribe subs p = subs) := by
  refine ⟨?_, ?_, ?_, ?_⟩
  · rw [unsubscribeAll_spec]
  · rw [unsubscribeAll_spec]
  · rw [unsubscribeAll_spec]
  · intro subs p h
    rw [tryUnsubscribe, h]

/-- Witness for C10: a scene tracking the pair (0, 9) that is absent from
the bus state: the raising unsubscribe is absorbed and tracking is
cleared. -/
theorem unsubscribe_all_absorbs_and_clears_witness :
    ((Scene.unsubscribeAll (World.mk [1] [(0, 5)])
        (SceneSt.mk [1] [(0, 5), (0, 9)])).2.listeners = []) ∧
    (pyListRemove ([] : List Sub) (0, 9) = Except.error () ∧
      tryUnsubscribe ([] : List Sub) (0, 9) = []) :=
  ⟨(unsubscribe_all_absorbs_and_clears (World.mk [1] [(0, 5)])
      (SceneSt.mk [1] [(0, 5), (0, 9)])).1,
   rfl,
   (unsubscribe_all_absorbs_and_clears (World.mk [1] [(0, 5)])
      (SceneSt.mk [1] [(0, 5), (0, 9)])).2.2.2 [] (0, 9) rfl⟩

/-- C1: with scenes A and B registered with empty instance state, no scene
active, the ids A creates fresh (Python object identity) and the pairs A
subscribes fresh, set_active_scene(A) followed by set_active_scene(B)
leaves no entity created by the A load in the engine-global entity list
and none of the pairs A subscribed on any bus; and the second transition
is exactly the unload of A followed by the load of B (unload strictly
before load). -/
theorem scene_isolation (w0 : World) (scs : List (String × SceneData))
    (A B : String) (actsA actsB : List LoadAction)
    (hAB : A ≠ B)
    (hA : scs.lookup A = some (SceneData.mk actsA (SceneSt.mk [] [])))
    (hB : scs.lookup B = some (SceneData.mk actsB (SceneSt.mk [] [])))
    (hent : ∀ e ∈ createdIds actsA, e ∉ w0.entities ∧ e ∉ createdIds actsB)
    (hsub : ∀ p ∈ subscribedSubs actsA, p ∉ w0.subs ∧ p ∉ subscribedSubs actsB) :
    (((SMState.mk w0 scs none).setActiveScene A).setActiveScene B =
      SMState.loadNamed (SMState.unloadCurrent ((SMState.mk w0 scs none).setActiveScene A)) B) ∧
    (∀ e ∈ createdIds actsA,
      e ∉ (((SMState.mk w0 scs none).setActiveScene A).setActiveScene B).world.entities) ∧
    (∀ p ∈ subscribedSubs actsA,
      p ∉ (((SMState.mk w0 scs none).setActiveScene A).setActiveScene B).world.subs) := by
  have hg1 : ¬ ((SMState.mk w0 scs none).scenes.lookup A).isNone = true := by
    show ¬ (scs.lookup A).isNone = true
    rw [hA]
    simp
  have hg2 : ¬ (SMState.mk w0 scs none).activeName = some A := by
    simp
  have hm1 : (SMState.mk w0 scs none).setActiveScene A =
      SMState.mk (Scene.load w0 (SceneSt.mk [] []) actsA).1
        (updateScene scs A
          (SceneData.mk actsA (Scene.load w0 (SceneSt.mk [] []) actsA).2))
        (some A) := by
    rw [SMState.setActiveScene, if_neg hg1, if_neg hg2]
    have hUC : SMState.unloadCurrent (SMState.mk w0 scs none) = SMState.mk w0 scs none := rfl
    rw [hUC]
    show SMState.loadNamed (SMState.mk w0 scs none) A = _
    rw [SMState.loadNamed]
    simp only [hA]
  have hlookupB1 : (updateScene scs A
      (SceneData.mk actsA (Scene.load w0 (SceneSt.mk [] []) actsA).2)).lookup B =
      some (SceneData.mk actsB (SceneSt.mk [] [])) := by
    rw [lookup_updateScene_ne scs A B _ (fun h => hAB h.symm)]
    exact hB
  have hlookupA1 : (updateScene scs A
      (SceneData.mk actsA (Scene.load w0 (SceneSt.mk [] []) actsA).2)).lookup A =
      some (SceneData.mk actsA (Scene.load w0 (SceneSt.mk [] []) actsA).2) := by
    apply lookup_updateScene_self
    rw [hA]
    rfl
  have hg3 : ¬ ((((SMState.mk w0 scs none).setActiveScene A)).scenes.lookup B).isNone = true := by
    rw [hm1]
    show ¬ ((updateScene scs A _).lookup B).isNone = true
    rw [hlookupB1]
    simp
  have hg4 : ¬ (((SMState.mk w0 scs none).setActiveScene A)).activeName = some B := by
    rw [hm1]
    show ¬ (some A = some B)
    simp
    exact hAB
  have hm2eq : (((SMState.mk w0 scs none).setActiveScene A).setActiveScene B) =
      SMState.loadNamed (SMState.unloadCurrent ((SMState.mk w0 scs none).setActiveScene A)) B := by
    rw [SMState.setActiveScene, if_neg hg3, if_neg hg4]
  refine ⟨hm2eq, ?_, ?_⟩
  all_goals {
    have hUC1 : SMState.unloadCurrent ((SMState.mk w0 scs none).setActiveScene A) =
        SMState.mk (Scene.unload (Scene.load w0 (SceneSt.mk [] []) actsA).1
            (Scene.load w0 (SceneSt.mk [] []) actsA).2).1
          (updateScene (updateScene scs A
              (SceneData.mk actsA (Scene.load w0 (SceneSt.mk [] []) actsA).2)) A
            (SceneData.mk actsA
              (Scene.unload (Scene.load w0 (SceneSt.mk [] []) actsA).1
                (Scene.load w0 (SceneSt.mk [] []) actsA).2).2))
          (some A) := by
      rw [hm1]
      rw [SMState.unloadCurrent]
      simp only [hlookupA1]
    have hlookupB2 : (updateScene (updateScene scs A
        (SceneData.mk actsA (Scene.load w0 (SceneSt.mk [] []) actsA).2)) A
          (SceneData.mk actsA
            (Scene.unload (Scene.load w0 (SceneSt.mk [] []) actsA).1
              (Scene.load w0 (SceneSt.mk [] []) actsA).2).2)).lookup B =
        some (SceneData.mk actsB (SceneSt.mk [] [])) := by
      rw [lookup_updateScene_ne _ A B _ (fun h => hAB h.symm)]
      exact hlookupB1
    have hworld2 : ((((SMState.mk w0 scs none).setActiveScene A).setActiveScene B)).world =
        (Scene.load (Scene.unload (Scene.load w0 (SceneSt.mk [] []) actsA).1
            (Scene.load w0 (SceneSt.mk [] []) actsA).2).1
          (SceneSt.mk [] []) actsB).1 := by
      rw [hm2eq, hUC1, SMState.loadNamed]
      simp only [hlookupB2]
    rw [hworld2]
    first
    | {
        intro e he
        obtain ⟨he0, heB⟩ := hent e he
        have hst1 : (Scene.unload (Scene.load w0 (SceneSt.mk [] []) actsA).1
            (Scene.load w0 (SceneSt.mk [] []) actsA).2).1.entities =
            (Scene.load w0 (SceneSt.mk [] []) actsA).2.tracked.foldl removeFirst
              (Scene.load w0 (SceneSt.mk [] []) actsA).1.entities := by
          rw [unload_spec]
        intro hmem2
        have hm2 := ((load_mem actsB _ (SceneSt.mk [] []) e).1).mp hmem2
        rcases hm2 with hm2 | hm2
        · rw [hst1] at hm2
          have hcnt0 : cnt w0.entities e = 0 := (cnt_eq_zero _ _).mpr he0
          obtain ⟨heqc, hlec⟩ := load_cnt actsA w0 (SceneSt.mk [] []) e
            (by rw [hcnt0]; rfl) (by rw [hcnt0]; omega)
          have hcntU := cnt_foldl_removeFirst
            (Scene.load w0 (SceneSt.mk [] []) actsA).2.tracked
            (Scene.load w0 (SceneSt.mk [] []) actsA).1.entities e
          have hzero : cnt ((Scene.load w0 (SceneSt.mk [] []) actsA).2.tracked.foldl
              removeFirst (Scene.load w0 (SceneSt.mk [] []) actsA).1.entities) e = 0 := by
            rw [hcntU, heqc]
            omega
          exact absurd hm2 ((cnt_eq_zero _ _).mp hzero)
        · exact heB hm2
      }
    | {
        intro p hp
        obtain ⟨hp0, hpB⟩ := hsub p hp
        obtain ⟨hs1, hs2⟩ := load_subs_listeners actsA w0 (SceneSt.mk [] [])
        have hsubsU : (Scene.unload (Scene.load w0 (SceneSt.mk [] []) actsA).1
            (Scene.load w0 (SceneSt.mk [] []) actsA).2).1.subs =
            (Scene.load w0 (SceneSt.mk [] []) actsA).2.listeners.foldl removeFirst
              (Scene.load w0 (SceneSt.mk [] []) actsA).1.subs := by
          rw [unload_spec]
        intro hmem2
        obtain ⟨hsB, _⟩ := load_subs_listeners actsB
          (Scene.unload (Scene.load w0 (SceneSt.mk [] []) actsA).1
            (Scene.load w0 (SceneSt.mk [] []) actsA).2).1 (SceneSt.mk [] [])
        rw [hsB] at hmem2
        rcases List.mem_append.mp hmem2 with hm2 | hm2
        · rw [hsubsU, hs1, hs2] at hm2
          have hcnt0 : cnt w0.subs p = 0 := (cnt_eq_zero _ _).mpr hp0
          have hzero : cnt ((([] : List Sub) ++ subscribedSubs actsA).foldl removeFirst
              (w0.subs ++ subscribedSubs actsA)) p = 0 := by
            rw [cnt_foldl_removeFirst, cnt_append, cnt_append, hcnt0]
            have hcnt_nil : cnt ([] : List Sub) p = 0 := rfl
            rw [hcnt_nil]
            omega
          exact absurd hm2 ((cnt_eq_zero _ _).mp hzero)
        · exact hpB hm2
      }
  }

/-- Witness for C1: scene A creates entity 1 and subscribes (0, 5); scene B
creates entity 2 and subscribes (0, 6); after activating A then B, entity 1
is gone from the engine list and pair (0, 5) from every bus. -/
theorem scene_isolation_witness :
    ("A" ≠ "B") ∧
    (1 ∈ createdIds [LoadAction.createEntity 1, LoadAction.subscribe (0, 5)] ∧
      1 ∉ (((SMState.mk (World.mk [] [])
          [("A", SceneData.mk [LoadAction.createEntity 1, LoadAction.subscribe (0, 5)]
              (SceneSt.mk [] [])),
           ("B", SceneData.mk [LoadAction.createEntity 2, LoadAction.subscribe (0, 6)]
              (SceneSt.mk [] []))]
          none).setActiveScene "A").setActiveScene "B").world.entities) ∧
    ((0, 5) ∈ subscribedSubs [LoadAction.createEntity 1, LoadAction.subscribe (0, 5)] ∧
      (0, 5) ∉ (((SMState.mk (World.mk [] [])
          [("A", SceneData.mk [LoadAction.createEntity 1, LoadAction.subscribe (0, 5)]
              (SceneSt.mk [] [])),
           ("B", SceneData.mk [LoadAction.createEntity 2, LoadAction.subscribe (0, 6)]
              (SceneSt.mk [] []))]
          none).setActiveScene "A").setActiveScene "B").world.subs) :=
  ⟨by decide,
   ⟨by decide,
    (scene_isolation (World.mk [] [])
      [("A", SceneData.mk [LoadAction.createEntity 1, LoadAction.subscribe (0, 5)]
          (SceneSt.mk [] [])),
       ("B", SceneData.mk [LoadAction.createEntity 2, LoadAction.subscribe (0, 6)]
          (SceneSt.mk [] []))]
      "A" "B"
      [LoadAction.createEntity 1, LoadAction.subscribe (0, 5)]
      [LoadAction.createEntity 2, LoadAction.subscribe (0, 6)]
      (by decide) rfl rfl (by decide) (by decide)).2.1 1 (by decide)⟩,
   ⟨by decide,
    (scene_isolation (World.mk [] [])
      [("A", SceneData.mk [LoadAction.createEntity 1, LoadAction.subscribe (0, 5)]
          (SceneSt.mk [] [])),
       ("B", SceneData.mk [LoadAction.createEntity 2, LoadAction.subscribe (0, 6)]
          (SceneSt.mk [] []))]
      "A" "B"
      [LoadAction.createEntity 1, LoadAction.subscribe (0, 5)]
      [LoadAction.createEntity 2, LoadAction.subscribe (0, 6)]
      (by decide) rfl rfl (by decide) (by decide)).2.2 (0, 5) (by decide)⟩⟩

/-- Witness for C9: the concrete [UI, BACKGROUND, OBJECT] example drawn as
[BACKGROUND, OBJECT, UI], from the ordering theorem. -/
theorem render_draw_ordering_witness :
    RenderSystem.drawList
        [REntity.mk 1 true (some (Transform.mk 0 0)) (some (Render.mk true (some 7) DrawDepth.UI)),
         REntity.mk 2 true (some (Transform.mk 0 0)) (some (Render.mk true (some 7) DrawDepth.BACKGROUND)),
         REntity.mk 3 true (some (Transform.mk 0 0)) (some (Render.mk true (some 7) DrawDepth.OBJECT))] =
      [REntity.mk 2 true (some (Transform.mk 0 0)) (some (Render.mk true (some 7) DrawDepth.BACKGROUND)),
       REntity.mk 3 true (some (Transform.mk 0 0)) (some (Render.mk true (some 7) DrawDepth.OBJECT)),
       REntity.mk 1 true (some (Transform.mk 0 0)) (some (Render.mk true (some 7) DrawDepth.UI))] :=
  (render_draw_ordering []).2.2.2

end MiniGame
